import Mathlib

/-!
Verification of the aptVSstock financial simulation engine.

Shallow embedding of the core simulation functions of `plot.py` and the
winner computation of `interactive_plot.py`. Monetary amounts and rates
are modelled as exact rationals (`ℚ`); years as integers (`ℤ`).
Python exceptions are modelled with `Except String`; pandas dataframes
are modelled as lists of rows (tuples or records), and the in-place
column assignments of `calculate_investment_metrics` as explicit state
passing (the function returns the updated frame, which — by Python
reference semantics — is the very object the caller passed in).

The only construct that cannot live in `ℚ` is the float expression
`(1 + weighted_return)**(1/12) - 1` (a real 12th root). It is modelled
as an explicit function parameter `toMonthly : ℚ → ℚ` standing for the
map `x ↦ (1+x)^(1/12) - 1`; every theorem below holds for an arbitrary
`toMonthly`, so nothing depends on the numeric value of the root.
-/

namespace AptVsStock

/-- Embeds `calculate_mortgage_payment` (plot.py lines 114-122):
fixed monthly payment of an amortizing loan. -/
def calculate_mortgage_payment (loan_amount interest_rate : ℚ) (term_years : ℕ) : ℚ :=
  let r_monthly := interest_rate / 12
  let n_months : ℕ := term_years * 12
  if r_monthly = 0 then
    loan_amount / (n_months : ℚ)
  else
    loan_amount * (r_monthly * (1 + r_monthly) ^ n_months) / ((1 + r_monthly) ^ n_months - 1)

/-- Embeds `remaining_balance` (plot.py lines 124-137): outstanding
mortgage balance after `k` whole years, for annual payment `A`. -/
def remaining_balance (k : ℤ) (P r_annual A : ℚ) (n : ℕ) : ℚ :=
  if k ≤ 0 then P
  else if (n : ℤ) < k then 0
  else
    let r_monthly := r_annual / 12
    let months : ℕ := k.toNat * 12
    let M := A / 12
    if r_monthly ≠ 0 then
      P * (1 + r_monthly) ^ months - M * ((1 + r_monthly) ^ months - 1) / r_monthly
    else
      P - M * (months : ℚ)

/-- C1: with the annual payment set to 12 times the computed monthly
payment, the remaining balance equals the principal for every
elapsed ≤ 0 and equals 0 for every elapsed ≥ the term, including
elapsed exactly equal to the term. -/
theorem remaining_balance_term_bounds (P r : ℚ) (n : ℕ) (k : ℤ)
    (hr : 0 ≤ r) (hn : 1 ≤ n) :
    (k ≤ 0 →
      remaining_balance k P r (12 * calculate_mortgage_payment P r n) n = P) ∧
    ((n : ℤ) ≤ k →
      remaining_balance k P r (12 * calculate_mortgage_payment P r n) n = 0) := by
  constructor
  · intro hk
    simp [remaining_balance, hk]
  · intro hk
    have hk0 : ¬ k ≤ 0 := by
      have : (1 : ℤ) ≤ (n : ℤ) := by exact_mod_cast hn
      omega
    by_cases hlt : (n : ℤ) < k
    · simp [remaining_balance, hk0, hlt]
    · -- the boundary case k = n: the annuity formula pays off exactly
      have hkn : k = (n : ℤ) := le_antisymm (not_lt.mp hlt) hk
      subst hkn
      have htn : ((n : ℤ)).toNat = n := Int.toNat_ofNat n
      have hn0 : n ≠ 0 := by omega
      have h12n : ((n * 12 : ℕ) : ℚ) ≠ 0 := by
        exact_mod_cast Nat.mul_ne_zero hn0 (by norm_num)
      by_cases hr0 : r = 0
      · -- zero-rate: straight-line payments exhaust the principal
        subst hr0
        simp only [remaining_balance, calculate_mortgage_payment]
        rw [if_neg hk0, if_neg hlt]
        simp only [htn]
        norm_num
        field_simp
      · -- positive rate: the annuity formula gives exactly zero at k = n
        have hrm : r / 12 ≠ 0 := by
          intro h
          rcases div_eq_zero_iff.mp h with h | h
          · exact hr0 h
          · norm_num at h
        have hrmpos : 0 < r / 12 := by
          rcases lt_or_eq_of_le hr with h | h
          · positivity
          · exact absurd h.symm hr0
        have hX : 1 < (1 + r / 12) ^ (n * 12) := by
          have h1 : 1 < 1 + r / 12 := by linarith
          have hne : n * 12 ≠ 0 := by positivity
          exact one_lt_pow₀ h1 hne
        have hXne : (1 + r / 12) ^ (n * 12) - 1 ≠ 0 := by linarith
        simp only [remaining_balance, calculate_mortgage_payment]
        rw [if_neg hk0, if_neg hlt]
        simp only [htn]
        rw [if_neg hrm, if_pos hrm]
        set X := (1 + r / 12) ^ (n * 12) with hXdef
        have key : (12 : ℚ) * (P * (r / 12 * X) / (X - 1)) / 12 =
            P * (r / 12 * X) / (X - 1) := by ring
        rw [key, div_mul_cancel₀ _ hXne]
        field_simp
        ring

/-- Witness for C1 at P = 100, r = 12 (monthly rate 1), n = 1, k = 1. -/
theorem remaining_balance_term_bounds_witness :
    (0 : ℚ) ≤ 12 ∧ 1 ≤ 1 ∧ ((1 : ℕ) : ℤ) ≤ (1 : ℤ) ∧
    remaining_balance 1 100 12 (12 * calculate_mortgage_payment 100 12 1) 1 = 0 :=
  ⟨by norm_num, le_refl 1, by norm_num,
    (remaining_balance_term_bounds 100 12 1 1 (by norm_num) (le_refl 1)).2 (by norm_num)⟩

/-- `series.get(year, 0)`-style lookup on a year-indexed series,
modelled as an association list. -/
def seriesGet (s : List (ℤ × ℚ)) (year : ℤ) (dflt : ℚ) : ℚ :=
  match s.find? (fun p => p.1 == year) with
  | some p => p.2
  | none => dflt

/-- Optional lookup, modelling `df['Year'].map(inflation_factors)`
(absent year gives NaN, here `none`). -/
def mapGet (s : List (ℤ × ℚ)) (year : ℤ) : Option ℚ :=
  (s.find? (fun p => p.1 == year)).map Prod.snd

theorem seriesGet_nil (year : ℤ) (dflt : ℚ) : seriesGet [] year dflt = dflt := rfl

theorem seriesGet_cons (y : ℤ) (v : ℚ) (rest : List (ℤ × ℚ)) (year : ℤ) (dflt : ℚ) :
    seriesGet ((y, v) :: rest) year dflt =
      if y = year then v else seriesGet rest year dflt := by
  by_cases h : y = year
  · subst h
    simp [seriesGet, List.find?]
  · have hb : (y == year) = false := beq_eq_false_iff_ne.mpr h
    simp [seriesGet, List.find?, hb, h]

theorem mapGet_nil (year : ℤ) : mapGet [] year = none := rfl

theorem mapGet_cons (y : ℤ) (v : ℚ) (rest : List (ℤ × ℚ)) (year : ℤ) :
    mapGet ((y, v) :: rest) year = if y = year then some v else mapGet rest year := by
  by_cases h : y = year
  · subst h
    simp [mapGet, List.find?]
  · have hb : (y == year) = false := beq_eq_false_iff_ne.mpr h
    simp [mapGet, List.find?, hb, h]

/-- One row of the portfolio dataframe as built by the growth loop of
`calculate_portfolio_performance` (plot.py lines 341-411), before the
final fee/tax post-processing. -/
structure PortfolioRecord where
  year : ℤ
  portfolio_value : ℚ
  cumulative_investment : ℚ
  annual_management_fee : ℚ
  cumulative_management_fees : ℚ
  monthly_exchange_fees : ℚ
  cumulative_monthly_exchange_fees : ℚ
  initial_exchange_fee : ℚ
deriving Repr, DecidableEq

/-- The inner loop `for month in range(12): v *= (1+mr); v += mi`
(plot.py lines 392-394), iterated `m` times. -/
def applyMonths (mr mi : ℚ) : ℕ → ℚ → ℚ
  | 0, v => v
  | m + 1, v => applyMonths mr mi m (v * (1 + mr) + mi)

/-- Blended annual return (plot.py line 378). -/
def weightedReturn (sp500_allocation stock_return bond_return : ℚ) : ℚ :=
  sp500_allocation / 100 * stock_return + (100 - sp500_allocation) / 100 * bond_return

/-- Portfolio value of a non-first simulated year after that year's
growth (and contributions, while the loan runs), before the annual
management fee is applied (plot.py lines 380-399). `toMonthly` stands
for the float 12th-root map `x ↦ (1+x)^(1/12) - 1` of line 380. -/
def portfolioGrownValue (toMonthly : ℚ → ℚ) (start_year : ℤ) (term_years : ℤ) (M : ℚ)
    (stock_returns bond_returns : List (ℤ × ℚ)) (sp500_allocation : ℚ)
    (prev : PortfolioRecord) (year : ℤ) : ℚ :=
  let stock_return := seriesGet stock_returns year 0 / 100
  let bond_return := seriesGet bond_returns year 0 / 100
  let weighted_return := weightedReturn sp500_allocation stock_return bond_return
  let monthly_return := toMonthly weighted_return
  if year - start_year ≤ term_years then
    applyMonths monthly_return (M - M * (5 / 1000)) 12 prev.portfolio_value
  else
    prev.portfolio_value * (1 + weighted_return)

/-- The `i == 0` branch of the growth loop (plot.py lines 361-370): the
first record holds the down payment net of the 0.5% initial exchange
fee; the management fee is computed and recorded but `current_value`
is not decremented. -/
def portfolioFirstRecord (down_payment : ℚ) (year : ℤ) : PortfolioRecord :=
  let initial_exchange_fee := down_payment * (5 / 1000)
  let initial_investment := down_payment - initial_exchange_fee
  let annual_management_fee := initial_investment * (3 / 10000)
  { year := year
    portfolio_value := initial_investment
    cumulative_investment := down_payment
    annual_management_fee := annual_management_fee
    cumulative_management_fees := annual_management_fee
    monthly_exchange_fees := 0
    cumulative_monthly_exchange_fees := 0
    initial_exchange_fee := initial_exchange_fee }

/-- The `else` (non-first year) branch of the growth loop
(plot.py lines 371-411), carrying the previous year's record. -/
def portfolioYearStep (toMonthly : ℚ → ℚ) (start_year : ℤ) (term_years : ℤ) (M : ℚ)
    (stock_returns bond_returns : List (ℤ × ℚ)) (sp500_allocation : ℚ)
    (prev : PortfolioRecord) (year : ℤ) : PortfolioRecord :=
  let grown := portfolioGrownValue toMonthly start_year term_years M
    stock_returns bond_returns sp500_allocation prev year
  let annual_management_fee := grown * (3 / 10000)
  if year - start_year ≤ term_years then
    let monthly_exchange_fees := M * (5 / 1000) * 12
    { year := year
      portfolio_value := grown - annual_management_fee
      cumulative_investment := prev.cumulative_investment + M * 12
      annual_management_fee := annual_management_fee
      cumulative_management_fees := prev.cumulative_management_fees + annual_management_fee
      monthly_exchange_fees := monthly_exchange_fees
      cumulative_monthly_exchange_fees :=
        prev.cumulative_monthly_exchange_fees + monthly_exchange_fees
      initial_exchange_fee := 0 }
  else
    { year := year
      portfolio_value := grown - annual_management_fee
      cumulative_investment := prev.cumulative_investment
      annual_management_fee := annual_management_fee
      cumulative_management_fees := prev.cumulative_management_fees + annual_management_fee
      monthly_exchange_fees := 0
      cumulative_monthly_exchange_fees := prev.cumulative_monthly_exchange_fees + 0
      initial_exchange_fee := 0 }

/-- Remaining iterations of the growth loop after the first year. -/
def portfolioGrowthAux (toMonthly : ℚ → ℚ) (start_year : ℤ) (term_years : ℤ) (M : ℚ)
    (stock_returns bond_returns : List (ℤ × ℚ)) (sp500_allocation : ℚ)
    (prev : PortfolioRecord) : List ℤ → List PortfolioRecord
  | [] => []
  | y :: ys =>
    let r := portfolioYearStep toMonthly start_year term_years M
      stock_returns bond_returns sp500_allocation prev y
    r :: portfolioGrowthAux toMonthly start_year term_years M
      stock_returns bond_returns sp500_allocation r ys

/-- The whole growth loop (plot.py lines 360-411) over the sorted list
of simulated years. -/
def portfolioGrowth (toMonthly : ℚ → ℚ) (start_year : ℤ) (term_years : ℤ)
    (M down_payment : ℚ) (stock_returns bond_returns : List (ℤ × ℚ))
    (sp500_allocation : ℚ) : List ℤ → List PortfolioRecord
  | [] => []
  | y0 :: rest =>
    let first := portfolioFirstRecord down_payment y0
    first :: portfolioGrowthAux toMonthly start_year term_years M
      stock_returns bond_returns sp500_allocation first rest

/-- One row of the final portfolio dataframe after the fee/tax
post-processing of plot.py lines 413-452. -/
structure PortfolioOut where
  base : PortfolioRecord
  final_exchange_fee : ℚ
  portfolio_value_after_fees : ℚ
  total_fees : ℚ
  profit_pretax : ℚ
  tax : ℚ
  net_profit_nominal : ℚ
  inflation_factor : ℚ
  investment_return : ℚ
deriving Repr, DecidableEq

/-- Post-processing of one record (plot.py lines 413-452). -/
def portfolioPost (inflation_factors : List (ℤ × ℚ)) (r : PortfolioRecord) : PortfolioOut :=
  let final_exchange_fee := r.portfolio_value * (2 / 1000)
  let portfolio_value_after_fees := r.portfolio_value - final_exchange_fee
  let total_fees := r.initial_exchange_fee + r.cumulative_monthly_exchange_fees +
    r.cumulative_management_fees + final_exchange_fee
  let profit_pretax := portfolio_value_after_fees - r.cumulative_investment
  let tax := if 0 < profit_pretax then profit_pretax * (25 / 100) else 0
  let net_profit_nominal := profit_pretax - tax
  let inflation_factor := (mapGet inflation_factors r.year).getD 0
  { base := r
    final_exchange_fee := final_exchange_fee
    portfolio_value_after_fees := portfolio_value_after_fees
    total_fees := total_fees
    profit_pretax := profit_pretax
    tax := tax
    net_profit_nominal := net_profit_nominal
    inflation_factor := inflation_factor
    investment_return := net_profit_nominal * inflation_factor }

/-- Embeds `calculate_portfolio_performance` (plot.py lines 323-454).
`years` is `sorted(df['Year'].unique())`; missing stock or bond years
fall back to a 0 return via `seriesGet`; only missing inflation
factors raise, after the growth loop has run. -/
def calculate_portfolio_performance (toMonthly : ℚ → ℚ) (years : List ℤ)
    (start_year : ℤ) (initial_price interest_rate : ℚ) (term_years : ℕ)
    (stock_returns bond_returns : List (ℤ × ℚ)) (sp500_allocation : ℚ)
    (inflation_factors : List (ℤ × ℚ)) : Except String (List PortfolioOut) :=
  let down_payment := initial_price * (25 / 100)
  let mortgage_amount := initial_price * (75 / 100)
  let M := calculate_mortgage_payment mortgage_amount interest_rate term_years
  let recs := portfolioGrowth toMonthly start_year (term_years : ℤ) M down_payment
    stock_returns bond_returns sp500_allocation years
  let missing_inflation_years :=
    (recs.filter (fun r => (mapGet inflation_factors r.year).isNone)).map (fun r => r.year)
  if missing_inflation_years = [] then
    .ok (recs.map (portfolioPost inflation_factors))
  else
    .error ("Missing inflation data for market portfolio in years: " ++
      toString missing_inflation_years)

theorem portfolioYearStep_year (toMonthly : ℚ → ℚ) (start_year term_years : ℤ) (M : ℚ)
    (st bd : List (ℤ × ℚ)) (alloc : ℚ) (prev : PortfolioRecord) (y : ℤ) :
    (portfolioYearStep toMonthly start_year term_years M st bd alloc prev y).year = y := by
  simp only [portfolioYearStep]
  split <;> rfl

theorem portfolioGrowthAux_map_year (toMonthly : ℚ → ℚ) (start_year term_years : ℤ)
    (M : ℚ) (st bd : List (ℤ × ℚ)) (alloc : ℚ) (prev : PortfolioRecord) (ys : List ℤ) :
    (portfolioGrowthAux toMonthly start_year term_years M st bd alloc prev ys).map
      PortfolioRecord.year = ys := by
  induction ys generalizing prev with
  | nil => rfl
  | cons y ys ih =>
    simp [portfolioGrowthAux, portfolioYearStep_year, ih]

theorem portfolioGrowth_map_year (toMonthly : ℚ → ℚ) (start_year term_years : ℤ)
    (M d : ℚ) (st bd : List (ℤ × ℚ)) (alloc : ℚ) (years : List ℤ) :
    (portfolioGrowth toMonthly start_year term_years M d st bd alloc years).map
      PortfolioRecord.year = years := by
  cases years with
  | nil => rfl
  | cons y ys =>
    simp [portfolioGrowth, portfolioFirstRecord, portfolioGrowthAux_map_year]

theorem filter_missing_eq_nil (infl : List (ℤ × ℚ)) (recs : List PortfolioRecord)
    (h : ∀ r ∈ recs, (mapGet infl r.year).isSome) :
    recs.filter (fun r => (mapGet infl r.year).isNone) = [] := by
  induction recs with
  | nil => rfl
  | cons r rs ih =>
    have h1 := h r (by simp)
    have h2 : ∀ x ∈ rs, (mapGet infl x.year).isSome := fun x hx => h x (by simp [hx])
    have hfalse : (mapGet infl r.year).isNone = false := by
      rcases Option.isSome_iff_exists.mp h1 with ⟨v, hv⟩
      simp [hv]
    simp [List.filter_cons, hfalse, ih h2]

/-- C2 (corrected) counterexample: a 1995-1997 window in which the
years 1996 and 1997 are absent from both the stock-return and the
bond-return series. The simulator raises no missing-data error and
returns a full three-record sequence: `.get(year, 0)` silently
substitutes a 0% return. -/
theorem portfolio_missing_market_year_returns_full_output :
    (calculate_portfolio_performance (fun x => x / 12) [1995, 1996, 1997] 1995 100 0 1
        [] [] 80 [(1995, 1), (1996, 1), (1997, 1)]).toOption.map List.length =
      some 3 := by
  norm_num [calculate_portfolio_performance, portfolioGrowth, portfolioGrowthAux,
    portfolioYearStep, portfolioGrownValue, portfolioFirstRecord, applyMonths,
    weightedReturn, seriesGet_nil, mapGet_cons, mapGet_nil,
    calculate_mortgage_payment, Except.toOption, portfolioPost]

/-- C2 (amended): simulated years absent from the stock-return or
bond-return series are silently treated as a 0% return; as long as all
simulated years have an inflation factor, the Portfolio Investment
Simulator completes without error and returns one record per simulated
year (missing market data never raises). -/
theorem portfolio_completes_despite_missing_market_years (toMonthly : ℚ → ℚ)
    (years : List ℤ) (start_year : ℤ) (initial_price interest_rate : ℚ)
    (term_years : ℕ) (stock_returns bond_returns : List (ℤ × ℚ))
    (sp500_allocation : ℚ) (inflation_factors : List (ℤ × ℚ))
    (h : ∀ y ∈ years, (mapGet inflation_factors y).isSome) :
    ∃ l, calculate_portfolio_performance toMonthly years start_year initial_price
        interest_rate term_years stock_returns bond_returns sp500_allocation
        inflation_factors = .ok l ∧ l.length = years.length := by
  have hyears := portfolioGrowth_map_year toMonthly start_year (term_years : ℤ)
    (calculate_mortgage_payment (initial_price * (75 / 100)) interest_rate term_years)
    (initial_price * (25 / 100)) stock_returns bond_returns sp500_allocation years
  have hmem : ∀ r ∈ portfolioGrowth toMonthly start_year (term_years : ℤ)
      (calculate_mortgage_payment (initial_price * (75 / 100)) interest_rate term_years)
      (initial_price * (25 / 100)) stock_returns bond_returns sp500_allocation years,
      (mapGet inflation_factors r.year).isSome := by
    intro r hr
    refine h _ ?_
    rw [← hyears]
    exact List.mem_map_of_mem _ hr
  have hfil := filter_missing_eq_nil inflation_factors _ hmem
  refine ⟨(portfolioGrowth toMonthly start_year (term_years : ℤ)
      (calculate_mortgage_payment (initial_price * (75 / 100)) interest_rate term_years)
      (initial_price * (25 / 100)) stock_returns bond_returns sp500_allocation
      years).map (portfolioPost inflation_factors), ?_, ?_⟩
  · simp [calculate_portfolio_performance, hfil]
  · have hlen := congrArg List.length hyears
    simpa using hlen

/-- Witness for the amended C2 at a one-year window. -/
theorem portfolio_completes_despite_missing_market_years_witness :
    (∀ y ∈ ([0] : List ℤ), (mapGet [((0 : ℤ), (1 : ℚ))] y).isSome) ∧
    ∃ l, calculate_portfolio_performance (fun x => x / 12) [0] 0 100 0 1 [] [] 80
        [((0 : ℤ), (1 : ℚ))] = .ok l ∧ l.length = ([0] : List ℤ).length :=
  ⟨by
    intro y hy
    rw [List.mem_singleton] at hy
    subst hy
    simp [mapGet_cons],
   portfolio_completes_despite_missing_market_years (fun x => x / 12) [0] 0 100 0 1
    [] [] 80 [((0 : ℤ), (1 : ℚ))] (by
      intro y hy
      rw [List.mem_singleton] at hy
      subst hy
      simp [mapGet_cons])⟩

/-- C4: in every non-first simulated year whose elapsed years exceed
the loan term, the cumulative principal invested is unchanged from the
previous year, and the portfolio value changes only by applying the
blended annual market return and then deducting the 0.03% annual
management fee. -/
theorem portfolio_step_after_term (toMonthly : ℚ → ℚ) (start_year term_years : ℤ)
    (M : ℚ) (stock_returns bond_returns : List (ℤ × ℚ)) (sp500_allocation : ℚ)
    (prev : PortfolioRecord) (year : ℤ) (h : term_years < year - start_year) :
    (portfolioYearStep toMonthly start_year term_years M stock_returns bond_returns
        sp500_allocation prev year).cumulative_investment =
      prev.cumulative_investment ∧
    (portfolioYearStep toMonthly start_year term_years M stock_returns bond_returns
        sp500_allocation prev year).portfolio_value =
      prev.portfolio_value * (1 + weightedReturn sp500_allocation
          (seriesGet stock_returns year 0 / 100) (seriesGet bond_returns year 0 / 100)) -
        prev.portfolio_value * (1 + weightedReturn sp500_allocation
          (seriesGet stock_returns year 0 / 100) (seriesGet bond_returns year 0 / 100)) *
          (3 / 10000) := by
  have hnot : ¬ (year - start_year ≤ term_years) := not_le.mpr h
  constructor <;> simp [portfolioYearStep, portfolioGrownValue, hnot]

/-- A concrete previous-year record used by the C4 witness. -/
def sampleRecord : PortfolioRecord :=
  { year := 2, portfolio_value := 50, cumulative_investment := 20,
    annual_management_fee := 0, cumulative_management_fees := 0,
    monthly_exchange_fees := 0, cumulative_monthly_exchange_fees := 0,
    initial_exchange_fee := 0 }

/-- Witness for C4: term 1, start 0, year 3 (elapsed 3 exceeds the term). -/
theorem portfolio_step_after_term_witness :
    (1 : ℤ) < (3 : ℤ) - 0 ∧
    ((portfolioYearStep (fun x => x / 12) 0 1 10 [] [] 80 sampleRecord 3).cumulative_investment =
        sampleRecord.cumulative_investment ∧
      (portfolioYearStep (fun x => x / 12) 0 1 10 [] [] 80 sampleRecord 3).portfolio_value =
        sampleRecord.portfolio_value * (1 + weightedReturn 80 (seriesGet [] 3 0 / 100)
            (seriesGet [] 3 0 / 100)) -
          sampleRecord.portfolio_value * (1 + weightedReturn 80 (seriesGet [] 3 0 / 100)
            (seriesGet [] 3 0 / 100)) * (3 / 10000)) :=
  ⟨by norm_num,
   portfolio_step_after_term (fun x => x / 12) 0 1 10 [] [] 80 sampleRecord 3 (by norm_num)⟩

/-- C5 (corrected) counterexample: a one-year simulation with a down
payment of 1000 (initial price 4000). The single record carries
portfolio value 995 (= 1000 minus the 0.5% initial exchange fee) and a
recorded management fee of 995·0.0003 = 597/2000, yet 995 ≠ 995 −
597/2000: the first year's management fee is recorded but never
deducted from the portfolio value. -/
theorem first_year_management_fee_not_deducted :
    (calculate_portfolio_performance (fun x => x / 12) [1995] 1995 4000 0 1 [] [] 80
        [(1995, 1)]).toOption.map
      (List.map (fun o => (o.base.portfolio_value, o.base.annual_management_fee))) =
      some [(995, 597 / 2000)] ∧
    (995 : ℚ) ≠ 995 - 597 / 2000 := by
  constructor
  · norm_num [calculate_portfolio_performance, portfolioGrowth, portfolioGrowthAux,
      portfolioFirstRecord, mapGet_cons, mapGet_nil, calculate_mortgage_payment,
      Except.toOption, portfolioPost]
  · norm_num

/-- C5 (amended): the annual management fee is always recorded as
0.03% of the post-growth value and accumulated into the cumulative
fee total, but it is deducted from the portfolio value only in
non-first years; in the first simulated year the value stays at the
down payment net of the initial exchange fee, with the fee recorded
but not subtracted. -/
theorem management_fee_accounting (d : ℚ) (y0 : ℤ) (toMonthly : ℚ → ℚ)
    (start_year term_years : ℤ) (M : ℚ) (st bd : List (ℤ × ℚ)) (alloc : ℚ)
    (prev : PortfolioRecord) (year : ℤ) :
    (portfolioFirstRecord d y0).portfolio_value = d - d * (5 / 1000) ∧
    (portfolioFirstRecord d y0).annual_management_fee =
      (d - d * (5 / 1000)) * (3 / 10000) ∧
    (portfolioFirstRecord d y0).cumulative_management_fees =
      (portfolioFirstRecord d y0).annual_management_fee ∧
    (portfolioYearStep toMonthly start_year term_years M st bd alloc prev
        year).annual_management_fee =
      portfolioGrownValue toMonthly start_year term_years M st bd alloc prev year *
        (3 / 10000) ∧
    (portfolioYearStep toMonthly start_year term_years M st bd alloc prev
        year).portfolio_value =
      portfolioGrownValue toMonthly start_year term_years M st bd alloc prev year -
        (portfolioYearStep toMonthly start_year term_years M st bd alloc prev
          year).annual_management_fee ∧
    (portfolioYearStep toMonthly start_year term_years M st bd alloc prev
        year).cumulative_management_fees =
      prev.cumulative_management_fees +
        (portfolioYearStep toMonthly start_year term_years M st bd alloc prev
          year).annual_management_fee := by
  refine ⟨rfl, rfl, rfl, ?_, ?_, ?_⟩ <;>
    (simp only [portfolioYearStep]; split <;> rfl)

/-- The published rate columns of the interest-rate row
(`interest_row` of plot.py, columns of `mortgage_interest.csv`),
values in percent. -/
structure InterestRow where
  more_than_25 : ℚ
  from_20_to_25 : ℚ
  from_15_to_20 : ℚ
  from_10_to_15 : ℚ
  from_5_to_10 : ℚ
  from_1_to_5 : ℚ
  average : ℚ
deriving Repr, DecidableEq

/-- Embeds `get_interest_rate` (plot.py lines 97-112): the dict of
term bands is scanned in insertion order; the first band with
`min_years < loan_term <= max_years` wins, else the `Average` column.
There is no band for terms of at most 1 year. -/
def get_interest_rate (row : InterestRow) (loan_term : ℚ) : ℚ :=
  if 25 < loan_term then row.more_than_25 / 100
  else if 20 < loan_term ∧ loan_term ≤ 25 then row.from_20_to_25 / 100
  else if 15 < loan_term ∧ loan_term ≤ 20 then row.from_15_to_20 / 100
  else if 10 < loan_term ∧ loan_term ≤ 15 then row.from_10_to_15 / 100
  else if 5 < loan_term ∧ loan_term ≤ 10 then row.from_5_to_10 / 100
  else if 1 < loan_term ∧ loan_term ≤ 5 then row.from_1_to_5 / 100
  else row.average / 100

/-- A rate row with pairwise distinct column values, for the C6
counterexample. -/
def sampleInterestRow : InterestRow :=
  { more_than_25 := 1, from_20_to_25 := 2, from_15_to_20 := 3,
    from_10_to_15 := 4, from_5_to_10 := 5, from_1_to_5 := 6, average := 7 }

/-- C6 (corrected) counterexample: a loan term of 1 year lies in the
band (0,1], which the claim says maps to its own distinct rate
column; the lookup instead returns the overall average (7/100), which
differs from every band column of the sample row. -/
theorem interest_rate_one_year_falls_to_average :
    get_interest_rate sampleInterestRow 1 = sampleInterestRow.average / 100 ∧
    sampleInterestRow.average / 100 ≠ sampleInterestRow.from_1_to_5 / 100 ∧
    sampleInterestRow.average / 100 ≠ sampleInterestRow.more_than_25 / 100 ∧
    sampleInterestRow.average / 100 ≠ sampleInterestRow.from_20_to_25 / 100 ∧
    sampleInterestRow.average / 100 ≠ sampleInterestRow.from_15_to_20 / 100 ∧
    sampleInterestRow.average / 100 ≠ sampleInterestRow.from_10_to_15 / 100 ∧
    sampleInterestRow.average / 100 ≠ sampleInterestRow.from_5_to_10 / 100 := by
  refine ⟨?_, ?_, ?_, ?_, ?_, ?_, ?_⟩ <;>
    norm_num [get_interest_rate, sampleInterestRow]

/-- C6 (amended): the bands are (1,5], (5,10], (10,15], (15,20],
(20,25] and (25,∞), each mapping to its own published rate column
converted from percent to a fraction; every term of at most 1 year —
the claim's (0,1] band included — falls back to the overall average
rate. -/
theorem interest_rate_band_lookup (row : InterestRow) (t : ℚ) :
    (25 < t → get_interest_rate row t = row.more_than_25 / 100) ∧
    (20 < t ∧ t ≤ 25 → get_interest_rate row t = row.from_20_to_25 / 100) ∧
    (15 < t ∧ t ≤ 20 → get_interest_rate row t = row.from_15_to_20 / 100) ∧
    (10 < t ∧ t ≤ 15 → get_interest_rate row t = row.from_10_to_15 / 100) ∧
    (5 < t ∧ t ≤ 10 → get_interest_rate row t = row.from_5_to_10 / 100) ∧
    (1 < t ∧ t ≤ 5 → get_interest_rate row t = row.from_1_to_5 / 100) ∧
    (t ≤ 1 → get_interest_rate row t = row.average / 100) := by
  refine ⟨?_, ?_, ?_, ?_, ?_, ?_, ?_⟩
  · intro h
    simp only [get_interest_rate]
    rw [if_pos h]
  · rintro ⟨h1, h2⟩
    simp only [get_interest_rate]
    rw [if_neg (by intro hc; linarith), if_pos ⟨h1, h2⟩]
  · rintro ⟨h1, h2⟩
    simp only [get_interest_rate]
    rw [if_neg (by intro hc; linarith), if_neg (by rintro ⟨hc, -⟩; linarith),
      if_pos ⟨h1, h2⟩]
  · rintro ⟨h1, h2⟩
    simp only [get_interest_rate]
    rw [if_neg (by intro hc; linarith), if_neg (by rintro ⟨hc, -⟩; linarith),
      if_neg (by rintro ⟨hc, -⟩; linarith), if_pos ⟨h1, h2⟩]
  · rintro ⟨h1, h2⟩
    simp only [get_interest_rate]
    rw [if_neg (by intro hc; linarith), if_neg (by rintro ⟨hc, -⟩; linarith),
      if_neg (by rintro ⟨hc, -⟩; linarith), if_neg (by rintro ⟨hc, -⟩; linarith),
      if_pos ⟨h1, h2⟩]
  · rintro ⟨h1, h2⟩
    simp only [get_interest_rate]
    rw [if_neg (by intro hc; linarith), if_neg (by rintro ⟨hc, -⟩; linarith),
      if_neg (by rintro ⟨hc, -⟩; linarith), if_neg (by rintro ⟨hc, -⟩; linarith),
      if_neg (by rintro ⟨hc, -⟩; linarith), if_pos ⟨h1, h2⟩]
  · intro h
    simp only [get_interest_rate]
    rw [if_neg (by intro hc; linarith), if_neg (by rintro ⟨hc, -⟩; linarith),
      if_neg (by rintro ⟨hc, -⟩; linarith), if_neg (by rintro ⟨hc, -⟩; linarith),
      if_neg (by rintro ⟨hc, -⟩; linarith), if_neg (by rintro ⟨hc, -⟩; linarith)]

/-- Witness for the amended C6: a 3-year term maps to the (1,5] column,
a 1-year term to the average. -/
theorem interest_rate_band_lookup_witness :
    ((1 : ℚ) < 3 ∧ (3 : ℚ) ≤ 5 ∧
      get_interest_rate sampleInterestRow 3 = sampleInterestRow.from_1_to_5 / 100) ∧
    ((1 : ℚ) ≤ 1 ∧
      get_interest_rate sampleInterestRow 1 = sampleInterestRow.average / 100) :=
  ⟨⟨by norm_num, by norm_num,
      (interest_rate_band_lookup sampleInterestRow 3).2.2.2.2.2.1 ⟨by norm_num, by norm_num⟩⟩,
   ⟨le_refl 1,
      (interest_rate_band_lookup sampleInterestRow 1).2.2.2.2.2.2 (le_refl 1)⟩⟩

/-- The two investment strategies compared by the dashboard. -/
inductive InvestmentType where
  | apartment
  | portfolio
deriving Repr, DecidableEq

/-- Area under the real-return curve: the sum of the yearly
inflation-adjusted returns (`df['Investment_Return'].sum()`,
interactive_plot.py lines 628-629). -/
def area_under_curve (real_returns : List ℚ) : ℚ :=
  real_returns.sum

/-- Embeds the winner computation of `update_graph`
(interactive_plot.py line 630): apartment wins on a strictly larger
area, the portfolio otherwise. -/
def update_graph_winner (apt_area market_area : ℚ) : InvestmentType :=
  if market_area < apt_area then .apartment else .portfolio

/-- C3: the winner is decided by total area under the real-return
curve — the sum of yearly real returns over all simulated years — and
the strategy with the strictly larger sum is declared winner, whatever
the final-year values are. -/
theorem winner_by_area_under_curve (apt_returns market_returns : List ℚ) :
    ((area_under_curve market_returns < area_under_curve apt_returns →
      update_graph_winner (area_under_curve apt_returns)
        (area_under_curve market_returns) = .apartment) ∧
     (area_under_curve apt_returns < area_under_curve market_returns →
      update_graph_winner (area_under_curve apt_returns)
        (area_under_curve market_returns) = .portfolio)) := by
  constructor
  · intro h
    simp [update_graph_winner, h]
  · intro h
    simp [update_graph_winner, not_lt.mpr (le_of_lt h)]

/-- Witness for C3: apartment series [10, 10, 10, 0] against portfolio
series [0, 0, 0, 11]. The portfolio has the larger final-year return
(11 > 0) but the smaller area (11 < 30), and the apartment is declared
winner. -/
theorem winner_by_area_under_curve_witness :
    area_under_curve [0, 0, 0, 11] < area_under_curve [10, 10, 10, 0] ∧
    update_graph_winner (area_under_curve [10, 10, 10, 0])
      (area_under_curve [0, 0, 0, 11]) = .apartment :=
  ⟨by norm_num [area_under_curve],
   (winner_by_area_under_curve [10, 10, 10, 0] [0, 0, 0, 11]).1
     (by norm_num [area_under_curve])⟩

/-- First row of `rent_df[rent_df['שנה'] == year]` (plot.py line 145),
as an association-list lookup. -/
def rentLookup (rent_df : List (ℤ × ℚ)) (year : ℤ) : Option (ℤ × ℚ) :=
  match rent_df with
  | [] => none
  | p :: rest => if p.1 = year then some p else rentLookup rest year

/-- Embeds `get_monthly_rent` (plot.py lines 139-149): an empty rent
series returns 0 (the source only prints a warning); a nonempty series
without the requested year raises naming that single year. The
`region`/`rooms` parameters only feed the warning text and are
omitted. -/
def get_monthly_rent (year : ℤ) (rent_df : List (ℤ × ℚ)) : Except String ℚ :=
  if rent_df.length = 0 then .ok 0
  else
    match rentLookup rent_df year with
    | some p => .ok p.2
    | none => .error ("No rent data found for year " ++ toString year)

/-- Embeds `calculate_cumulative_rent` (plot.py lines 151-166). `rows`
is the (Year, Yearly_Rent) content of the apartment price frame `df`
passed by `calculate_investment_metrics` (the `rent_df` argument of
the source is unused there). Membership in
`sorted(df['Year'].unique())` is membership in `rows.map Prod.fst`. -/
def calculate_cumulative_rent (k : ℤ) (rows : List (ℤ × ℚ)) (start_year : ℤ) :
    Except String ℚ :=
  if k ≤ 0 then .ok 0
  else
    let years_needed := (List.range k.toNat).map (fun i : ℕ => start_year + (i : ℤ))
    let years_available := rows.map Prod.fst
    let missing_years := years_needed.filter (fun yr => !(years_available.contains yr))
    if missing_years = [] then
      .ok (((rows.filter (fun p =>
        decide (start_year ≤ p.1 ∧ p.1 < start_year + k))).map Prod.snd).sum)
    else
      .error ("Missing rent data for years: " ++ toString missing_years)

/-- `List.mapM` for `Except`, written recursively: pandas `.apply`
evaluates rows in order and the first raised exception aborts the
whole computation. -/
def exceptMapList {α β : Type} (f : α → Except String β) : List α → Except String (List β)
  | [] => .ok []
  | a :: as =>
    match f a with
    | .error e => .error e
    | .ok b =>
      match exceptMapList f as with
      | .error e => .error e
      | .ok bs => .ok (b :: bs)

/-- One row of the apartment dataframe after
`calculate_investment_metrics` (plot.py lines 199-239). -/
structure AptRecord where
  year : ℤ
  price : ℚ
  k : ℤ
  balance : ℚ
  investment_value : ℚ
  cumulative_payments : ℚ
  yearly_rent_gross : ℚ
  maintenance_cost : ℚ
  yearly_rent : ℚ
  cumulative_rent : ℚ
  inflation_factor : ℚ
  investment_return_nominal : ℚ
  investment_return : ℚ
deriving Repr, DecidableEq

/-- Embeds `calculate_investment_metrics` (plot.py lines 199-239) as
the record sequence it computes. `prices` is the (Year, Price) content
of the filtered apartment frame. Column assignments are evaluated in
source order: the `Yearly_Rent_Gross` apply first (aborting at the
first year missing from a nonempty rent series), then the
`Cumulative_Rent` apply, then the missing-inflation check that
collects every uncovered year. -/
def calculate_investment_metrics (prices : List (ℤ × ℚ)) (start_year : ℤ)
    (P interest_rate : ℚ) (term_years : ℕ) (rent_df : List (ℤ × ℚ))
    (inflation_factors : List (ℤ × ℚ)) : Except String (List AptRecord) :=
  let down_payment := P * (25 / 100)
  let mortgage_amount := P * (75 / 100)
  let M := calculate_mortgage_payment mortgage_amount interest_rate term_years
  let A := M * 12
  match exceptMapList (fun p => (get_monthly_rent p.1 rent_df).map (fun r => r * 12))
      prices with
  | .error e => .error e
  | .ok grossList =>
    let rentRows := (prices.zip grossList).map
      (fun pg => (pg.1.1, pg.2 - pg.2 * (15 / 100)))
    match exceptMapList (fun pg =>
        (calculate_cumulative_rent (pg.1.1 - start_year) rentRows start_year).map
          (fun c => (pg, c))) (prices.zip grossList) with
    | .error e => .error e
    | .ok withCum =>
      let missing_inflation_years :=
        (withCum.filter (fun x => (mapGet inflation_factors x.1.1.1).isNone)).map
          (fun x => x.1.1.1)
      if missing_inflation_years = [] then
        .ok (withCum.map (fun x =>
          let year := x.1.1.1
          let price := x.1.1.2
          let gross := x.1.2
          let k := year - start_year
          let balance := remaining_balance k mortgage_amount interest_rate A term_years
          let maintenance_cost := gross * (15 / 100)
          let cumulative_payments := down_payment + min k (term_years : ℤ) * A
          let infl := (mapGet inflation_factors year).getD 0
          let nominal := (price - balance) - cumulative_payments + x.2
          { year := year, price := price, k := k, balance := balance,
            investment_value := price - balance,
            cumulative_payments := cumulative_payments,
            yearly_rent_gross := gross, maintenance_cost := maintenance_cost,
            yearly_rent := gross - maintenance_cost, cumulative_rent := x.2,
            inflation_factor := infl, investment_return_nominal := nominal,
            investment_return := nominal * infl }))
      else
        .error ("Missing inflation data for years: " ++ toString missing_inflation_years)

/-- The apartment price dataframe as a column store: `Year` and
`Price` are always present, the columns assigned by
`calculate_investment_metrics` are optional. -/
structure Frame where
  yearCol : List ℤ
  priceCol : List ℚ
  kCol : Option (List ℤ)
  balanceCol : Option (List ℚ)
  investmentValueCol : Option (List ℚ)
  cumulativePaymentsCol : Option (List ℚ)
  yearlyRentGrossCol : Option (List ℚ)
  maintenanceCostCol : Option (List ℚ)
  yearlyRentCol : Option (List ℚ)
  cumulativeRentCol : Option (List ℚ)
  inflationFactorCol : Option (List ℚ)
  investmentReturnNominalCol : Option (List ℚ)
  investmentReturnCol : Option (List ℚ)
deriving Repr, DecidableEq

/-- Python passes the dataframe by reference and
`calculate_investment_metrics` assigns its computed columns directly
into it (plot.py lines 206-237) before returning the same object, so
the caller's frame after a successful call is the frame returned
here: the in-place mutation is modelled as explicit state passing. -/
def calculate_investment_metrics_frame (df : Frame) (start_year : ℤ)
    (P interest_rate : ℚ) (term_years : ℕ) (rent_df : List (ℤ × ℚ))
    (inflation_factors : List (ℤ × ℚ)) : Except String Frame :=
  (calculate_investment_metrics (df.yearCol.zip df.priceCol) start_year P interest_rate
    term_years rent_df inflation_factors).map (fun recs =>
    { yearCol := recs.map AptRecord.year
      priceCol := recs.map AptRecord.price
      kCol := some (recs.map AptRecord.k)
      balanceCol := some (recs.map AptRecord.balance)
      investmentValueCol := some (recs.map AptRecord.investment_value)
      cumulativePaymentsCol := some (recs.map AptRecord.cumulative_payments)
      yearlyRentGrossCol := some (recs.map AptRecord.yearly_rent_gross)
      maintenanceCostCol := some (recs.map AptRecord.maintenance_cost)
      yearlyRentCol := some (recs.map AptRecord.yearly_rent)
      cumulativeRentCol := some (recs.map AptRecord.cumulative_rent)
      inflationFactorCol := some (recs.map AptRecord.inflation_factor)
      investmentReturnNominalCol := some (recs.map AptRecord.investment_return_nominal)
      investmentReturnCol := some (recs.map AptRecord.investment_return) })

/-- The first year of a list with no row in the rent series — the year
at which the `Yearly_Rent_Gross` apply of plot.py line 217 raises. -/
def firstMissingRentYear (rent_df : List (ℤ × ℚ)) (years : List ℤ) : Option ℤ :=
  years.find? (fun yr => (rentLookup rent_df yr).isNone)

theorem grossMapM_first_missing (rent_df : List (ℤ × ℚ)) (hne : rent_df.length ≠ 0) :
    ∀ (ys : List (ℤ × ℚ)) (y : ℤ),
      firstMissingRentYear rent_df (ys.map Prod.fst) = some y →
      exceptMapList (fun p => (get_monthly_rent p.1 rent_df).map (fun r => r * 12)) ys =
        .error ("No rent data found for year " ++ toString y) := by
  intro ys
  induction ys with
  | nil =>
    intro y h
    simp [firstMissingRentYear] at h
  | cons p ps ih =>
    intro y h
    by_cases hb : (rentLookup rent_df p.1).isNone
    · have hy : p.1 = y := by
        simp only [firstMissingRentYear, List.map_cons, List.find?_cons, hb] at h
        exact Option.some.inj h
      subst hy
      have hnone : rentLookup rent_df p.1 = none := Option.isNone_iff_eq_none.mp hb
      simp [exceptMapList, get_monthly_rent, hne, hnone, Except.map]
    · obtain ⟨q, hq⟩ : ∃ q, rentLookup rent_df p.1 = some q := by
        cases hc : rentLookup rent_df p.1 with
        | none => exact absurd (by simp [hc]) hb
        | some q => exact ⟨q, rfl⟩
      have hb0 : (rentLookup rent_df p.1).isNone = false := by simp [hq]
      have hrest : firstMissingRentYear rent_df (ps.map Prod.fst) = some y := by
        simpa only [firstMissingRentYear, List.map_cons, List.find?_cons, hb0] using h
      have hfp : (get_monthly_rent p.1 rent_df).map (fun r => r * 12) =
          .ok (q.2 * 12) := by
        simp [get_monthly_rent, hne, hq, Except.map]
      rw [exceptMapList, hfp, ih y hrest]

/-- C7 (corrected) counterexample: apartment years 0-2 with rent data
only for year 0 (years 1 and 2 both missing from the nonempty rent
series). The simulation fails, but with the per-year lookup error
naming only year 1 — not a message enumerating [1, 2]. -/
theorem apartment_missing_rent_error_names_single_year :
    calculate_investment_metrics [(0, 100), (1, 110), (2, 120)] 0 100 0 1 [(0, 10)]
        [(0, 1), (1, 1), (2, 1)] =
      .error ("No rent data found for year " ++ toString (1 : ℤ)) ∧
    "No rent data found for year " ++ toString (1 : ℤ) ≠
      "Missing rent data for years: " ++ toString ([1, 2] : List ℤ) := by
  constructor
  · norm_num [calculate_investment_metrics, exceptMapList, get_monthly_rent,
      rentLookup, Except.map]
  · decide

/-- C7 (amended): when one or more years required for the rent
computation are absent from a nonempty rent series, the apartment
simulation fails fast — no records are returned — but the error comes
from the per-year rent lookup and names only the first missing year,
not every missing year. -/
theorem apartment_missing_rent_fails_with_first_year (prices : List (ℤ × ℚ))
    (start_year : ℤ) (P interest_rate : ℚ) (term_years : ℕ)
    (rent_df inflation_factors : List (ℤ × ℚ)) (y : ℤ)
    (hne : rent_df.length ≠ 0)
    (hfirst : firstMissingRentYear rent_df (prices.map Prod.fst) = some y) :
    calculate_investment_metrics prices start_year P interest_rate term_years rent_df
      inflation_factors = .error ("No rent data found for year " ++ toString y) := by
  have hg := grossMapM_first_missing rent_df hne prices y hfirst
  simp [calculate_investment_metrics, hg]

/-- Witness for the amended C7 at the counterexample input. -/
theorem apartment_missing_rent_fails_with_first_year_witness :
    ([((0 : ℤ), (10 : ℚ))].length ≠ 0) ∧
    firstMissingRentYear [((0 : ℤ), (10 : ℚ))]
      (([(0, 100), (1, 110), (2, 120)] : List (ℤ × ℚ)).map Prod.fst) = some 1 ∧
    calculate_investment_metrics [(0, 100), (1, 110), (2, 120)] 0 100 0 1 [(0, 10)]
        [(0, 1), (1, 1), (2, 1)] =
      .error ("No rent data found for year " ++ toString (1 : ℤ)) :=
  ⟨by norm_num,
   by norm_num [firstMissingRentYear, rentLookup, List.find?],
   apartment_missing_rent_fails_with_first_year [(0, 100), (1, 110), (2, 120)] 0 100 0 1
     [(0, 10)] [(0, 1), (1, 1), (2, 1)] 1 (by norm_num)
     (by norm_num [firstMissingRentYear, rentLookup, List.find?])⟩

/-- The specification's cumulative-rent function: the sum of the
yearly net rents over the half-open year interval
[start_year, start_year + k), written from the spec's words for
comparison with `calculate_cumulative_rent`. -/
def cumulativeRentSpec (rentAt : ℤ → ℚ) (start_year : ℤ) : ℕ → ℚ
  | 0 => 0
  | k + 1 => cumulativeRentSpec rentAt start_year k + rentAt (start_year + (k : ℤ))

theorem interval_filter_sum_succ (rows : List (ℤ × ℚ)) (start : ℤ) (k : ℕ)
    (hnd : (rows.map Prod.fst).Nodup)
    (hmem : start + (k : ℤ) ∈ rows.map Prod.fst) :
    ((rows.filter (fun p =>
        decide (start ≤ p.1 ∧ p.1 < start + (k : ℤ) + 1))).map Prod.snd).sum =
      ((rows.filter (fun p =>
        decide (start ≤ p.1 ∧ p.1 < start + (k : ℤ)))).map Prod.snd).sum +
        (mapGet rows (start + (k : ℤ))).getD 0 := by
  induction rows with
  | nil => simp at hmem
  | cons q rest ih =>
    obtain ⟨y, v⟩ := q
    rw [List.map_cons, List.nodup_cons] at hnd
    obtain ⟨hy_not, hnd_rest⟩ := hnd
    rw [List.map_cons, List.mem_cons] at hmem
    by_cases hy : y = start + (k : ℤ)
    · subst hy
      have hp1 : decide (start ≤ start + (k : ℤ) ∧
          start + (k : ℤ) < start + (k : ℤ) + 1) = true := by
        simp only [decide_eq_true_eq]
        omega
      have hp2 : decide (start ≤ start + (k : ℤ) ∧
          start + (k : ℤ) < start + (k : ℤ)) = false := by
        simp only [decide_eq_false_iff_not]
        omega
      have hrest_eq : rest.filter (fun p =>
          decide (start ≤ p.1 ∧ p.1 < start + (k : ℤ) + 1)) =
          rest.filter (fun p => decide (start ≤ p.1 ∧ p.1 < start + (k : ℤ))) := by
        apply List.filter_congr
        intro x hx
        have hxne : x.1 ≠ start + (k : ℤ) := by
          intro hcontra
          have hx1 : x.1 ∈ rest.map Prod.fst := List.mem_map_of_mem Prod.fst hx
          rw [hcontra] at hx1
          exact hy_not hx1
        apply decide_eq_decide.mpr
        omega
      simp only [List.filter_cons]
      rw [hp1, hp2, if_pos rfl, if_neg Bool.false_ne_true]
      rw [List.map_cons, List.sum_cons, hrest_eq, mapGet_cons, if_pos rfl,
        Option.getD_some]
      ring
    · have hmem_rest : start + (k : ℤ) ∈ rest.map Prod.fst := by
        rcases hmem with h | h
        · exact absurd h.symm hy
        · exact h
      have hpred : decide (start ≤ y ∧ y < start + (k : ℤ) + 1) =
          decide (start ≤ y ∧ y < start + (k : ℤ)) := by
        apply decide_eq_decide.mpr
        omega
      rw [List.filter_cons, List.filter_cons, hpred,
        mapGet_cons, if_neg hy]
      cases hb : decide (start ≤ y ∧ y < start + (k : ℤ)) with
      | false =>
        simp only [Bool.false_eq_true, if_false]
        exact ih hnd_rest hmem_rest
      | true =>
        simp only [if_true, List.map_cons, List.sum_cons]
        rw [ih hnd_rest hmem_rest]
        ring

theorem interval_filter_sum_eq_spec (rows : List (ℤ × ℚ)) (start : ℤ)
    (hnd : (rows.map Prod.fst).Nodup) :
    ∀ k : ℕ, (∀ i : ℕ, i < k → start + (i : ℤ) ∈ rows.map Prod.fst) →
    ((rows.filter (fun p =>
        decide (start ≤ p.1 ∧ p.1 < start + (k : ℤ)))).map Prod.snd).sum =
      cumulativeRentSpec (fun y => (mapGet rows y).getD 0) start k := by
  intro k
  induction k with
  | zero =>
    intro _
    have hemptyfil : rows.filter (fun p =>
        decide (start ≤ p.1 ∧ p.1 < start + ((0 : ℕ) : ℤ))) = [] := by
      apply List.filter_eq_nil_iff.mpr
      intro p _
      simp only [decide_eq_true_eq, not_and, not_lt]
      intro hle
      omega
    rw [hemptyfil, cumulativeRentSpec]
    rfl
  | succ k ih =>
    intro hcov
    have hmem := hcov k (Nat.lt_succ_self k)
    have hfun : (fun p : ℤ × ℚ =>
        decide (start ≤ p.1 ∧ p.1 < start + ((k + 1 : ℕ) : ℤ))) =
        (fun p : ℤ × ℚ => decide (start ≤ p.1 ∧ p.1 < start + (k : ℤ) + 1)) := by
      funext p
      apply decide_eq_decide.mpr
      constructor
      · rintro ⟨h1, h2⟩
        exact ⟨h1, by push_cast at h2 ⊢; omega⟩
      · rintro ⟨h1, h2⟩
        exact ⟨h1, by push_cast; omega⟩
    rw [hfun, interval_filter_sum_succ rows start k hnd hmem,
      ih (fun i hi => hcov i (Nat.lt_succ_of_lt hi))]
    rfl

theorem mapGet_getD_nonneg (rows : List (ℤ × ℚ)) (h : ∀ p ∈ rows, 0 ≤ p.2) (y : ℤ) :
    0 ≤ (mapGet rows y).getD 0 := by
  unfold mapGet
  cases hf : rows.find? (fun p => p.1 == y) with
  | none => simp
  | some q =>
    have hq : (Option.map Prod.snd (some q)).getD 0 = q.2 := rfl
    rw [hq]
    exact h q (List.mem_of_find?_eq_some hf)

theorem cumulativeRentSpec_mono (rentAt : ℤ → ℚ) (start : ℤ)
    (h : ∀ y, 0 ≤ rentAt y) :
    ∀ k1 k2 : ℕ, k1 ≤ k2 →
      cumulativeRentSpec rentAt start k1 ≤ cumulativeRentSpec rentAt start k2 := by
  intro k1 k2
  induction k2 with
  | zero =>
    intro hle
    have : k1 = 0 := Nat.le_zero.mp hle
    subst this
    exact le_refl _
  | succ k2 ih =>
    intro hle
    by_cases h12 : k1 ≤ k2
    · calc cumulativeRentSpec rentAt start k1 ≤ cumulativeRentSpec rentAt start k2 :=
          ih h12
        _ ≤ cumulativeRentSpec rentAt start (k2 + 1) := by
          show _ ≤ cumulativeRentSpec rentAt start k2 + rentAt (start + (k2 : ℤ))
          linarith [h (start + (k2 : ℤ))]
    · have : k1 = k2 + 1 := by omega
      subst this
      exact le_refl _

theorem no_missing_years_of_coverage (rows : List (ℤ × ℚ)) (start k : ℤ)
    (hcov : ∀ i : ℕ, (i : ℤ) < k → start + (i : ℤ) ∈ rows.map Prod.fst) :
    ((List.range k.toNat).map (fun i : ℕ => start + (i : ℤ))).filter
      (fun yr => !((rows.map Prod.fst).contains yr)) = [] := by
  apply List.filter_eq_nil_iff.mpr
  intro yr hyr
  simp only [List.mem_map, List.mem_range] at hyr
  obtain ⟨i, hi, rfl⟩ := hyr
  have hmem : start + (i : ℤ) ∈ rows.map Prod.fst := hcov i (by omega)
  have hcont : (rows.map Prod.fst).contains (start + (i : ℤ)) = true :=
    List.elem_iff.mpr hmem
  rw [hcont]
  simp

theorem cumulative_rent_ok_of_coverage (rows : List (ℤ × ℚ)) (start_year k : ℤ)
    (hnd : (rows.map Prod.fst).Nodup) (hk : 0 ≤ k)
    (hcov : ∀ i : ℕ, (i : ℤ) < k → start_year + (i : ℤ) ∈ rows.map Prod.fst) :
    calculate_cumulative_rent k rows start_year =
      .ok (cumulativeRentSpec (fun y => (mapGet rows y).getD 0) start_year k.toNat) := by
  by_cases hk0 : k ≤ 0
  · have : k = 0 := le_antisymm hk0 hk
    subst this
    simp [calculate_cumulative_rent, cumulativeRentSpec]
  · have hmiss := no_missing_years_of_coverage rows start_year k hcov
    have hsum := interval_filter_sum_eq_spec rows start_year hnd k.toNat
      (fun i hi => hcov i (by omega))
    have hcast : ((k.toNat : ℕ) : ℤ) = k := Int.toNat_of_nonneg hk
    rw [hcast] at hsum
    simp only [calculate_cumulative_rent]
    rw [if_neg hk0, hmiss, if_pos rfl, hsum]

/-- C8: cumulative rent at the purchase year is exactly 0; net yearly
rent is gross rent times 0.85 (gross minus 15% maintenance); over a
year range with complete, duplicate-free data the cumulative rent
equals the sum of net yearly rent over the half-open interval from the
purchase year up to but excluding the target year; and for
non-negative rents it is monotonically non-decreasing in the target
year. `k1` and `k2` are elapsed-year counts (target year minus
purchase year). -/
theorem cumulative_rent_half_open_interval (rows : List (ℤ × ℚ)) (start_year : ℤ)
    (k1 k2 : ℤ) (hnd : (rows.map Prod.fst).Nodup)
    (hcov : ∀ i : ℕ, (i : ℤ) < k2 → start_year + (i : ℤ) ∈ rows.map Prod.fst)
    (hnonneg : ∀ p ∈ rows, 0 ≤ p.2) (h01 : 0 ≤ k1) (h12 : k1 ≤ k2) :
    calculate_cumulative_rent 0 rows start_year = .ok 0 ∧
    (∀ g : ℚ, g - g * (15 / 100) = g * (85 / 100)) ∧
    calculate_cumulative_rent k2 rows start_year =
      .ok (cumulativeRentSpec (fun y => (mapGet rows y).getD 0) start_year k2.toNat) ∧
    (∀ v1 v2, calculate_cumulative_rent k1 rows start_year = .ok v1 →
      calculate_cumulative_rent k2 rows start_year = .ok v2 → v1 ≤ v2) := by
  have e2 := cumulative_rent_ok_of_coverage rows start_year k2 hnd
    (le_trans h01 h12) hcov
  refine ⟨by simp [calculate_cumulative_rent], fun g => by ring, e2, ?_⟩
  intro v1 v2 hv1 hv2
  have e1 := cumulative_rent_ok_of_coverage rows start_year k1 hnd h01
    (fun i hi => hcov i (by omega))
  rw [e1] at hv1
  rw [e2] at hv2
  have hval1 := Except.ok.inj hv1
  have hval2 := Except.ok.inj hv2
  subst hval1
  subst hval2
  exact cumulativeRentSpec_mono _ start_year (mapGet_getD_nonneg rows hnonneg)
    k1.toNat k2.toNat (by omega)

/-- Witness for C8 with rent rows [(0, 5), (1, 7)], purchase year 0,
targets 1 and 2. -/
theorem cumulative_rent_half_open_interval_witness :
    (0 : ℤ) ≤ 1 ∧ (1 : ℤ) ≤ 2 ∧
    (calculate_cumulative_rent 0 [(0, 5), (1, 7)] 0 = .ok 0 ∧
    (∀ g : ℚ, g - g * (15 / 100) = g * (85 / 100)) ∧
    calculate_cumulative_rent 2 [(0, 5), (1, 7)] 0 =
      .ok (cumulativeRentSpec
        (fun y => (mapGet [(0, 5), (1, 7)] y).getD 0) 0 (2 : ℤ).toNat) ∧
    (∀ v1 v2, calculate_cumulative_rent 1 [(0, 5), (1, 7)] 0 = .ok v1 →
      calculate_cumulative_rent 2 [(0, 5), (1, 7)] 0 = .ok v2 → v1 ≤ v2)) :=
  ⟨by norm_num, by norm_num,
   cumulative_rent_half_open_interval [(0, 5), (1, 7)] 0 1 2
    (by norm_num)
    (by
      intro i hi
      have : i = 0 ∨ i = 1 := by omega
      rcases this with rfl | rfl <;> norm_num)
    (by
      intro p hp
      rcases List.mem_cons.mp hp with rfl | hp2
      · norm_num
      · rcases List.mem_cons.mp hp2 with rfl | hp3
        · norm_num
        · simp at hp3)
    (by norm_num) (by norm_num)⟩

theorem exceptMapList_cons_ok_inv {α β : Type} (f : α → Except String β) (a : α)
    (as : List α) (res : List β)
    (h : exceptMapList f (a :: as) = .ok res) :
    ∃ b bs, f a = .ok b ∧ exceptMapList f as = .ok bs ∧ res = b :: bs := by
  rw [exceptMapList] at h
  cases hfa : f a with
  | error e =>
    rw [hfa] at h
    exact absurd h (by simp)
  | ok b =>
    rw [hfa] at h
    cases hrest : exceptMapList f as with
    | error e =>
      rw [hrest] at h
      exact absurd h (by simp)
    | ok bs =>
      rw [hrest] at h
      exact ⟨b, bs, rfl, rfl, (Except.ok.inj h).symm⟩

theorem exceptMapList_ok_length {α β : Type} (f : α → Except String β) :
    ∀ (l : List α) (bs : List β), exceptMapList f l = .ok bs → bs.length = l.length := by
  intro l
  induction l with
  | nil =>
    intro bs h
    rw [exceptMapList] at h
    have hb := Except.ok.inj h
    subst hb
    rfl
  | cons a as ih =>
    intro bs h
    obtain ⟨b, bs2, hfa, hrest, rfl⟩ := exceptMapList_cons_ok_inv f a as bs h
    simp [ih bs2 hrest]

theorem exceptMapList_pair_fst {α γ : Type} (g : α → Except String γ) :
    ∀ (l : List α) (res : List (α × γ)),
      exceptMapList (fun a => (g a).map (fun c => (a, c))) l = .ok res →
      res.map Prod.fst = l := by
  intro l
  induction l with
  | nil =>
    intro res h
    rw [exceptMapList] at h
    have hr := Except.ok.inj h
    subst hr
    rfl
  | cons a as ih =>
    intro res h
    obtain ⟨b, res2, hfa, hrest, rfl⟩ :=
      exceptMapList_cons_ok_inv (fun a => (g a).map (fun c => (a, c))) a as res h
    have hb1 : b.1 = a := by
      cases hg : g a with
      | error e =>
        rw [hg] at hfa
        exact absurd hfa (by simp [Except.map])
      | ok c =>
        rw [hg] at hfa
        rw [show (Except.ok c).map (fun x => (a, x)) = Except.ok (a, c) from rfl] at hfa
        rw [← Except.ok.inj hfa]
    simp [hb1, ih res2 hrest]

theorem metrics_ok_shape (prices : List (ℤ × ℚ)) (start_year : ℤ)
    (P interest_rate : ℚ) (term_years : ℕ)
    (rent_df inflation_factors : List (ℤ × ℚ)) (recs : List AptRecord)
    (hok : calculate_investment_metrics prices start_year P interest_rate term_years
      rent_df inflation_factors = .ok recs) :
    recs.map AptRecord.year = prices.map Prod.fst ∧
    recs.map AptRecord.price = prices.map Prod.snd ∧
    recs.map AptRecord.k = prices.map (fun p => p.1 - start_year) ∧
    recs.length = prices.length := by
  rw [calculate_investment_metrics] at hok
  cases hg : exceptMapList
      (fun p => (get_monthly_rent p.1 rent_df).map (fun r => r * 12)) prices with
  | error e => simp [hg] at hok
  | ok grossList =>
    simp only [hg] at hok
    have hglen : grossList.length = prices.length :=
      exceptMapList_ok_length _ prices grossList hg
    cases hc : exceptMapList (fun pg =>
        (calculate_cumulative_rent (pg.1.1 - start_year)
          ((prices.zip grossList).map (fun pg => (pg.1.1, pg.2 - pg.2 * (15 / 100))))
          start_year).map (fun c => (pg, c))) (prices.zip grossList) with
    | error e => simp [hc] at hok
    | ok withCum =>
      simp only [hc] at hok
      have hfst : withCum.map Prod.fst = prices.zip grossList :=
        exceptMapList_pair_fst _ _ withCum hc
      by_cases hmiss : ((withCum.filter
          (fun x => (mapGet inflation_factors x.1.1.1).isNone)).map
          (fun x => x.1.1.1)) = []
      · rw [if_pos hmiss] at hok
        have hrecs := Except.ok.inj hok
        subst hrecs
        have hww : withCum.map (fun x => x.1.1) = prices := by
          rw [show (fun x : ((ℤ × ℚ) × ℚ) × ℚ => x.1.1) = Prod.fst ∘ Prod.fst
              from rfl, ← List.map_map, hfst,
            List.map_fst_zip prices grossList (by omega)]
        have hyear : withCum.map (fun x => x.1.1.1) = prices.map Prod.fst := by
          rw [show (fun x : ((ℤ × ℚ) × ℚ) × ℚ => x.1.1.1) =
              Prod.fst ∘ (fun x : ((ℤ × ℚ) × ℚ) × ℚ => x.1.1) from rfl,
            ← List.map_map, hww]
        have hprice : withCum.map (fun x => x.1.1.2) = prices.map Prod.snd := by
          rw [show (fun x : ((ℤ × ℚ) × ℚ) × ℚ => x.1.1.2) =
              Prod.snd ∘ (fun x : ((ℤ × ℚ) × ℚ) × ℚ => x.1.1) from rfl,
            ← List.map_map, hww]
        have hk : withCum.map (fun x => x.1.1.1 - start_year) =
            prices.map (fun p => p.1 - start_year) := by
          rw [show (fun x : ((ℤ × ℚ) × ℚ) × ℚ => x.1.1.1 - start_year) =
              (fun p : ℤ × ℚ => p.1 - start_year) ∘
                (fun x : ((ℤ × ℚ) × ℚ) × ℚ => x.1.1) from rfl,
            ← List.map_map, hww]
        refine ⟨?_, ?_, ?_, ?_⟩
        · rw [← hyear]
          simp [Function.comp]
        · rw [← hprice]
          simp [Function.comp]
        · rw [← hk]
          simp [Function.comp]
        · have hlen1 : withCum.length = (prices.zip grossList).length := by
            have := congrArg List.length hfst
            simpa using this
          rw [List.length_map, hlen1, List.length_zip]
          omega
      · rw [if_neg hmiss] at hok
        simp at hok

/-- An input frame holding only the Year and Price columns, as handed
to `calculate_investment_metrics` by `main`/`update_graph`. -/
def sampleFrame : Frame :=
  { yearCol := [0], priceCol := [100], kCol := none, balanceCol := none,
    investmentValueCol := none, cumulativePaymentsCol := none,
    yearlyRentGrossCol := none, maintenanceCostCol := none, yearlyRentCol := none,
    cumulativeRentCol := none, inflationFactorCol := none,
    investmentReturnNominalCol := none, investmentReturnCol := none }

/-- C9 (corrected) counterexample: the caller passes a frame without a
k column; after `calculate_investment_metrics` returns, the frame the
caller holds (the same object, mutated in place) has a k column — the
input price dataframe is not left unchanged. -/
theorem metrics_mutates_caller_frame :
    sampleFrame.kCol = none ∧
    (calculate_investment_metrics_frame sampleFrame 0 100 0 1 [(0, 10)]
        [(0, 1)]).map Frame.kCol = .ok (some [0]) := by
  constructor
  · rfl
  · norm_num [calculate_investment_metrics_frame, calculate_investment_metrics,
      exceptMapList, get_monthly_rent, rentLookup, sampleFrame,
      calculate_cumulative_rent, mapGet_cons, mapGet_nil, Except.map]

/-- C9 (amended): `calculate_investment_metrics` is deterministic —
it is a pure function of its inputs in this model — but it does NOT
leave the caller's price dataframe unchanged: it assigns the computed
columns into the frame in place and returns that same frame, so after
a successful call the caller's frame keeps its Year and Price columns
and has gained a k column (among the others) that it did not have
before. -/
theorem metrics_frame_updates_in_place (df : Frame) (start_year : ℤ)
    (P interest_rate : ℚ) (term_years : ℕ)
    (rent_df inflation_factors : List (ℤ × ℚ)) (out : Frame)
    (hlen : df.yearCol.length = df.priceCol.length)
    (hok : calculate_investment_metrics_frame df start_year P interest_rate term_years
      rent_df inflation_factors = .ok out) :
    out.yearCol = df.yearCol ∧ out.priceCol = df.priceCol ∧
    out.kCol = some (df.yearCol.map (fun y => y - start_year)) := by
  rw [calculate_investment_metrics_frame] at hok
  cases hmet : calculate_investment_metrics (df.yearCol.zip df.priceCol) start_year P
      interest_rate term_years rent_df inflation_factors with
  | error e =>
    rw [hmet] at hok
    exact absurd hok (by simp [Except.map])
  | ok recs =>
    simp only [hmet, Except.map] at hok
    obtain ⟨hyear, hprice, hk, -⟩ := metrics_ok_shape
      (df.yearCol.zip df.priceCol) start_year P interest_rate term_years rent_df
      inflation_factors recs hmet
    have hzf : (df.yearCol.zip df.priceCol).map Prod.fst = df.yearCol :=
      List.map_fst_zip df.yearCol df.priceCol (by omega)
    have hzs : (df.yearCol.zip df.priceCol).map Prod.snd = df.priceCol :=
      List.map_snd_zip df.yearCol df.priceCol (by omega)
    have hout := (Except.ok.inj hok).symm
    subst hout
    refine ⟨?_, ?_, ?_⟩
    · show recs.map AptRecord.year = df.yearCol
      rw [hyear, hzf]
    · show recs.map AptRecord.price = df.priceCol
      rw [hprice, hzs]
    · show some (recs.map AptRecord.k) =
        some (df.yearCol.map (fun y => y - start_year))
      rw [hk, show (fun p : ℤ × ℚ => p.1 - start_year) =
          (fun y : ℤ => y - start_year) ∘ Prod.fst from rfl, ← List.map_map, hzf]

/-- The frame of `sampleFrame` after the in-place updates of
`calculate_investment_metrics` (down payment 25, mortgage 75, year 0,
price 100, rent 10/month, inflation factor 1). -/
def sampleFrameOut : Frame :=
  { yearCol := [0], priceCol := [100], kCol := some [0], balanceCol := some [75],
    investmentValueCol := some [25], cumulativePaymentsCol := some [25],
    yearlyRentGrossCol := some [120], maintenanceCostCol := some [18],
    yearlyRentCol := some [102], cumulativeRentCol := some [0],
    inflationFactorCol := some [1], investmentReturnNominalCol := some [0],
    investmentReturnCol := some [0] }

/-- Witness for the amended C9 at `sampleFrame`. -/
theorem metrics_frame_updates_in_place_witness :
    sampleFrame.yearCol.length = sampleFrame.priceCol.length ∧
    (sampleFrameOut.yearCol = sampleFrame.yearCol ∧
      sampleFrameOut.priceCol = sampleFrame.priceCol ∧
      sampleFrameOut.kCol = some (sampleFrame.yearCol.map (fun y => y - 0))) :=
  ⟨rfl,
   metrics_frame_updates_in_place sampleFrame 0 100 0 1 [(0, 10)] [(0, 1)]
     sampleFrameOut rfl
     (by norm_num [calculate_investment_metrics_frame, calculate_investment_metrics,
        exceptMapList, get_monthly_rent, rentLookup, sampleFrame, sampleFrameOut,
        calculate_cumulative_rent, mapGet_cons, mapGet_nil, Except.map,
        remaining_balance, calculate_mortgage_payment])⟩

theorem exceptMapList_ok_of_forall {α β : Type} (f : α → Except String β)
    (g : α → β) :
    ∀ l : List α, (∀ a ∈ l, f a = .ok (g a)) →
      exceptMapList f l = .ok (l.map g) := by
  intro l
  induction l with
  | nil => intro _; rfl
  | cons a as ih =>
    intro h
    rw [exceptMapList, h a (by simp), ih (fun x hx => h x (by simp [hx])),
      List.map_cons]

theorem cumulative_rent_zero_rows (rows : List (ℤ × ℚ)) (start k : ℤ)
    (h0 : ∀ q ∈ rows, q.2 = 0)
    (hcov : ∀ i : ℕ, (i : ℤ) < k → start + (i : ℤ) ∈ rows.map Prod.fst) :
    calculate_cumulative_rent k rows start = .ok 0 := by
  by_cases hk0 : k ≤ 0
  · simp [calculate_cumulative_rent, hk0]
  · have hmiss := no_missing_years_of_coverage rows start k hcov
    have hzero : ((rows.filter (fun p =>
        decide (start ≤ p.1 ∧ p.1 < start + k))).map Prod.snd).sum = 0 := by
      apply List.sum_eq_zero
      intro x hx
      simp only [List.mem_map] at hx
      obtain ⟨q, hq, rfl⟩ := hx
      exact h0 q (List.mem_of_mem_filter hq)
    simp only [calculate_cumulative_rent]
    rw [if_neg hk0, hmiss, if_pos rfl, hzero]

theorem zip_map_const_rent (prices : List (ℤ × ℚ)) :
    prices.zip (prices.map (fun _ => (0 : ℚ) * 12)) =
      prices.map (fun p => (p, (0 : ℚ) * 12)) := by
  induction prices with
  | nil => rfl
  | cons a as ih => simp only [List.map_cons, List.zip_cons_cons, ih]

/-- C10: with an empty rent series for the selected region and rooms,
the per-year rent lookup returns 0 instead of raising, and — provided
the unrelated inputs (price-year coverage, inflation factors) are
complete — the apartment simulation completes with one record per
simulated year whose yearly gross rent, net rent and cumulative rent
are all 0, rather than failing with a missing-data error. -/
theorem empty_rent_series_zero_rent (prices : List (ℤ × ℚ)) (start_year : ℤ)
    (P interest_rate : ℚ) (term_years : ℕ) (inflation_factors : List (ℤ × ℚ))
    (hcov : ∀ p ∈ prices, ∀ i : ℕ, (i : ℤ) < p.1 - start_year →
      start_year + (i : ℤ) ∈ prices.map Prod.fst)
    (hinfl : ∀ p ∈ prices, (mapGet inflation_factors p.1).isSome) :
    (∀ y : ℤ, get_monthly_rent y [] = .ok 0) ∧
    ∃ recs, calculate_investment_metrics prices start_year P interest_rate term_years
        [] inflation_factors = .ok recs ∧
      recs.length = prices.length ∧
      ∀ r ∈ recs, r.yearly_rent_gross = 0 ∧ r.yearly_rent = 0 ∧
        r.cumulative_rent = 0 := by
  have hg : exceptMapList (fun p => (get_monthly_rent p.1 []).map (fun r => r * 12))
      prices = .ok (prices.map (fun _ => (0 : ℚ) * 12)) :=
    exceptMapList_ok_of_forall _ _ prices (fun a _ => rfl)
  have hrent : ((prices.zip (prices.map (fun _ => (0 : ℚ) * 12))).map
      (fun pg => (pg.1.1, pg.2 - pg.2 * (15 / 100)))) =
      prices.map (fun p => (p.1, (0 : ℚ) * 12 - (0 : ℚ) * 12 * (15 / 100))) := by
    rw [zip_map_const_rent, List.map_map]
    rfl
  have hrfst : (prices.map (fun p : ℤ × ℚ =>
      (p.1, (0 : ℚ) * 12 - (0 : ℚ) * 12 * (15 / 100)))).map Prod.fst =
      prices.map Prod.fst := by
    rw [List.map_map]
    rfl
  have hr0 : ∀ q ∈ prices.map (fun p : ℤ × ℚ =>
      (p.1, (0 : ℚ) * 12 - (0 : ℚ) * 12 * (15 / 100))), q.2 = 0 := by
    intro q hq
    simp only [List.mem_map] at hq
    obtain ⟨p, hp, rfl⟩ := hq
    norm_num
  have hcum : exceptMapList (fun pg =>
      (calculate_cumulative_rent (pg.1.1 - start_year)
        ((prices.zip (prices.map (fun _ => (0 : ℚ) * 12))).map
          (fun pg => (pg.1.1, pg.2 - pg.2 * (15 / 100)))) start_year).map
        (fun c => (pg, c)))
      (prices.zip (prices.map (fun _ => (0 : ℚ) * 12))) =
      .ok ((prices.zip (prices.map (fun _ => (0 : ℚ) * 12))).map
        (fun pg => (pg, (0 : ℚ)))) := by
    apply exceptMapList_ok_of_forall
    intro pg hpg
    obtain ⟨pa, pb⟩ := pg
    have hpa : pa ∈ prices := (List.of_mem_zip hpg).1
    have hcr : calculate_cumulative_rent (pa.1 - start_year)
        ((prices.zip (prices.map (fun _ => (0 : ℚ) * 12))).map
          (fun pg => (pg.1.1, pg.2 - pg.2 * (15 / 100)))) start_year = .ok 0 := by
      rw [hrent]
      apply cumulative_rent_zero_rows _ _ _ hr0
      intro i hi
      rw [hrfst]
      exact hcov pa hpa i hi
    dsimp only
    rw [hcr]
    rfl
  have hmissinfl : (((prices.zip (prices.map (fun _ => (0 : ℚ) * 12))).map
      (fun pg => (pg, (0 : ℚ)))).filter
      (fun x => (mapGet inflation_factors x.1.1.1).isNone)).map
      (fun x => x.1.1.1) = [] := by
    have hf : ((prices.zip (prices.map (fun _ => (0 : ℚ) * 12))).map
        (fun pg => (pg, (0 : ℚ)))).filter
        (fun x => (mapGet inflation_factors x.1.1.1).isNone) = [] := by
      apply List.filter_eq_nil_iff.mpr
      intro x hx
      simp only [List.mem_map] at hx
      obtain ⟨pg, hpg, rfl⟩ := hx
      obtain ⟨pa, pb⟩ := pg
      have hpa : pa ∈ prices := (List.of_mem_zip hpg).1
      have hs := hinfl pa hpa
      dsimp only
      intro hcontra
      rw [Option.isNone_iff_eq_none] at hcontra
      rw [hcontra] at hs
      simp at hs
    rw [hf]
    rfl
  refine ⟨fun y => rfl, ?_⟩
  simp only [calculate_investment_metrics, hg, hcum, hmissinfl, reduceIte]
  refine ⟨_, rfl, ?_, ?_⟩
  · simp [List.length_zip]
  · intro r hr
    simp only [List.mem_map] at hr
    obtain ⟨x, hx, rfl⟩ := hr
    rw [zip_map_const_rent] at hx
    simp only [List.map_map, List.mem_map, Function.comp] at hx
    obtain ⟨p, hp, rfl⟩ := hx
    obtain ⟨q, hq, rfl⟩ := hp
    refine ⟨by norm_num, by norm_num, by norm_num⟩

/-- Witness for C10: two price years, empty rent series, full
inflation coverage. -/
theorem empty_rent_series_zero_rent_witness :
    (∀ y : ℤ, get_monthly_rent y [] = .ok 0) ∧
    ∃ recs, calculate_investment_metrics [(0, 100), (1, 110)] 0 100 0 1 []
        [(0, 2), (1, 3)] = .ok recs ∧
      recs.length = ([(0, 100), (1, 110)] : List (ℤ × ℚ)).length ∧
      ∀ r ∈ recs, r.yearly_rent_gross = 0 ∧ r.yearly_rent = 0 ∧
        r.cumulative_rent = 0 :=
  empty_rent_series_zero_rent [(0, 100), (1, 110)] 0 100 0 1 [(0, 2), (1, 3)]
    (by
      intro p hp i hi
      rcases List.mem_cons.mp hp with rfl | hp2
      · exfalso
        norm_num at hi
        omega
      · rcases List.mem_cons.mp hp2 with rfl | hp3
        · have : i = 0 := by norm_num at hi; omega
          subst this
          norm_num
        · simp at hp3)
    (by
      intro p hp
      rcases List.mem_cons.mp hp with rfl | hp2
      · norm_num [mapGet_cons]
      · rcases List.mem_cons.mp hp2 with rfl | hp3
        · norm_num [mapGet_cons]
        · simp at hp3)

end AptVsStock
